import Mathlib

/-!
Verification development for the `ledger-wagmi-connector` package
(`src/index.ts`, class `LedgerConnector`).

The connector is shallowly embedded as explicit state-passing functions.
Each method of the class becomes a Lean function taking:
  * a `ConnectorConfig` (the constructor inputs: chains, options, plus the
    external collaborator functions `getAddress` from ethers and
    `normalizeChainId` from wagmi, which the spec scopes out as thin
    wrappers — they are kept parametric),
  * a `TransportEnv` describing how the external Connect Kit and the
    resolved provider respond to each call (`checkSupport`,
    `connectKit.getProvider()`, the RPC requests, `provider.disconnect()`),
  * the current `ConnectorState` (the private fields `#provider`,
    `#providerImplementation`, and the content of browser `localStorage`
    at the fixed key `ledger.shimDisconnect`),
and returning the result (with thrown JS values modelled as `Except`),
the updated state, and the ordered list of observable effects (calls made
to the kit/provider and events emitted through the wagmi `Connector`
emitter).  `localStorage` is modelled as available (browser environment),
as one boolean: whether the shim key is present.
-/

namespace LedgerWagmi

/-- The two provider implementations the Connect Kit can resolve
(`SupportedProviderImplementations` from `@ledgerhq/connect-kit-loader`):
`ledgerConnect` is the Ledger Connect browser-extension provider — the
kind the spec calls "relay-mediated" in its shim-flag sentences, i.e. the
kind that cannot truly disconnect and needs the shim — and `walletConnect`
is the WalletConnect provider (the spec's other, "direct-bridge" kind),
the one whose handle has a real `disconnect()`. -/
inductive SupportedProviderImplementations where
  | ledgerConnect
  | walletConnect
deriving DecidableEq, Repr

/-- A raw chain id as delivered by the provider: a number or a (hex)
string, exactly the `number | string` union in `onChainChanged`. -/
inductive RawChainId where
  | num (n : Nat)
  | str (s : String)
deriving DecidableEq, Repr

/-- A thrown JS value, as far as the `connect()` catch block inspects it:
its `.code` property when that is a number (`none` covers both a missing
code and a non-numeric one such as ethers' INVALID_ARGUMENT string code),
whether it is an `Error` instance, and its `String(error)` rendering. -/
structure Thrown where
  code : Option Int
  isErrorInstance : Bool
  str : String
deriving DecidableEq, Repr

/-- The error thrown by ethers' `getAddress` on an invalid (or missing)
address argument: an `Error` instance whose `.code` is the string
INVALID_ARGUMENT, hence not a numeric code. -/
def invalidAddressError : Thrown :=
  { code := none, isErrorInstance := true, str := ("invalid address") }

/-- `LedgerConnectorOptions` (the fields the embedded methods read;
`bridge`, `infuraId` and `rpc` are only forwarded verbatim to
`checkSupport` and are carried inertly). -/
structure LedgerConnectorOptions where
  shimDisconnect : Bool
  enableDebugLogs : Bool
  infuraId : Option String
deriving DecidableEq, Repr

/-- The constructor inputs plus the external collaborator functions.
`chains` keeps only the chain ids, the one attribute
`isChainUnsupported` reads.  `getAddress` (ethers checksum formatting)
is partial: `none` means the call throws.  `normalizeChainId` is wagmi's
normalization helper. -/
structure ConnectorConfig where
  chains : List Nat
  options : LedgerConnectorOptions
  getAddress : String → Option String
  normalizeChainId : RawChainId → Nat

/-- How the external world answers each call the connector makes:
which implementation `checkSupport` reports, what
`connectKit.getProvider()` resolves to (the provider handle is modelled
as a `Nat` identity), the responses to the three RPC requests, the
result of the provider's own `disconnect()`, and whether the resolved
handle exposes `on` / `removeListener` (the duck-typed capability
checks at lines 112 and 176 of `index.ts`). -/
structure TransportEnv where
  implementation : SupportedProviderImplementations
  getProviderResult : Except Thrown Nat
  requestAccountsResult : Except Thrown (List String)
  chainIdResult : Except Thrown RawChainId
  ethAccountsResult : Except Thrown (List String)
  providerDisconnectResult : Except Thrown Unit
  hasOn : Bool
  hasRemoveListener : Bool

/-- The mutable state an instance carries: the cached `#provider`
handle, the `#providerImplementation` recorded by the last
`checkSupport`, and whether the `ledger.shimDisconnect` key is present
in `localStorage`. -/
structure ConnectorState where
  provider : Option Nat
  providerImplementation : Option SupportedProviderImplementations
  shimFlagPresent : Bool
deriving DecidableEq, Repr

/-- The fixed storage key (`protected shimDisconnectKey`). -/
def shimDisconnectKey : String := ("ledger.shimDisconnect")

/-- Payload of a `change` event emitted through the wagmi emitter. -/
inductive ChangePayload where
  | accountChange (account : String)
  | chainChange (id : Nat) (unsupported : Bool)
deriving DecidableEq, Repr

/-- Observable effects, in program order: calls into the Connect Kit and
the provider, storage writes, and events emitted to the framework. -/
inductive Effect where
  | checkSupport
  | kitGetProvider
  | request (method : String)
  | providerDisconnect
  | attachListeners
  | detachListeners
  | setShimFlag
  | removeShimFlag
  | emitMessage (type : String)
  | emitChange (payload : ChangePayload)
  | emitDisconnect
deriving DecidableEq, Repr

/-- The `chain` component of the data `connect()` returns. -/
structure ConnectorChain where
  id : Nat
  unsupported : Bool
deriving DecidableEq, Repr

/-- The `Required<ConnectorData>` value a successful `connect()` returns:
the checksummed account, the chain descriptor, and the provider handle
(the `Web3Provider` facade wraps the raw handle, so the handle identity
is what is kept). -/
structure ConnectorData where
  account : String
  chain : ConnectorChain
  provider : Nat
deriving DecidableEq, Repr

/-- Modelled from the spec: `isChainUnsupported` is inherited from the
wagmi `Connector` base class (an external collaborator, not part of this
repository's sources); the spec states `unsupported` = chain id not
present in the configured supported-chain list. -/
def isChainUnsupported (chains : List Nat) (id : Nat) : Bool :=
  !(chains.contains id)

/-- `getProvider()`: return the cached `#provider`, resolving it through
`connectKit.getProvider()` exactly when the cache is empty; a successful
resolution is cached, a rejection propagates and caches nothing. -/
def getProvider (env : TransportEnv) (s : ConnectorState) :
    Except Thrown Nat × ConnectorState × List Effect :=
  match s.provider with
  | some p => (Except.ok p, s, [])
  | none =>
    match env.getProviderResult with
    | Except.ok p =>
        (Except.ok p, { s with provider := some p }, [Effect.kitGetProvider])
    | Except.error e => (Except.error e, s, [Effect.kitGetProvider])

/-- `getAccount()`: acquire the provider, issue `eth_requestAccounts`,
take the first returned address and checksum it with `getAddress`
(which throws — `invalidAddressError` — when the list is empty, since
`accounts[0]` is then `undefined`, or when the address is invalid). -/
def getAccount (cfg : ConnectorConfig) (env : TransportEnv)
    (s : ConnectorState) :
    Except Thrown String × ConnectorState × List Effect :=
  match getProvider env s with
  | (Except.error e, s1, ef1) => (Except.error e, s1, ef1)
  | (Except.ok _, s1, ef1) =>
    match env.requestAccountsResult with
    | Except.error e =>
        (Except.error e, s1, ef1 ++ [Effect.request ("eth_requestAccounts")])
    | Except.ok accounts =>
      match accounts with
      | [] =>
          (Except.error invalidAddressError, s1,
            ef1 ++ [Effect.request ("eth_requestAccounts")])
      | a :: _ =>
        match cfg.getAddress a with
        | none =>
            (Except.error invalidAddressError, s1,
              ef1 ++ [Effect.request ("eth_requestAccounts")])
        | some account =>
            (Except.ok account, s1,
              ef1 ++ [Effect.request ("eth_requestAccounts")])

/-- `getChainId()`: acquire the provider, issue `eth_chainId`, normalize
the raw response with wagmi's `normalizeChainId`. -/
def getChainId (cfg : ConnectorConfig) (env : TransportEnv)
    (s : ConnectorState) :
    Except Thrown Nat × ConnectorState × List Effect :=
  match getProvider env s with
  | (Except.error e, s1, ef1) => (Except.error e, s1, ef1)
  | (Except.ok _, s1, ef1) =>
    match env.chainIdResult with
    | Except.error e =>
        (Except.error e, s1, ef1 ++ [Effect.request ("eth_chainId")])
    | Except.ok raw =>
        (Except.ok (cfg.normalizeChainId raw), s1,
          ef1 ++ [Effect.request ("eth_chainId")])

/-- The body of `connect()` (everything inside the `try`): record the
`checkSupport` implementation, acquire the provider, attach the event
handlers when the handle has `on`, emit the `connecting` message, run
account then chain discovery, compute `unsupported`, and — when the
shim option is on and the implementation is LedgerConnect — persist the
shim flag before returning the connector data.  The desired `chainId`
argument is only compared for logging (line 127) and affects nothing. -/
def connectBody (cfg : ConnectorConfig) (env : TransportEnv)
    (_desiredChainId : Option Nat) (s : ConnectorState) :
    Except Thrown ConnectorData × ConnectorState × List Effect :=
  let s0 : ConnectorState :=
    { s with providerImplementation := some env.implementation }
  match getProvider env s0 with
  | (Except.error e, s1, ef1) =>
      (Except.error e, s1, Effect.checkSupport :: ef1)
  | (Except.ok p, s1, ef1) =>
    let ef2 : List Effect :=
      if env.hasOn then [Effect.attachListeners] else []
    let ef3 : List Effect := [Effect.emitMessage ("connecting")]
    match getAccount cfg env s1 with
    | (Except.error e, s2, ef4) =>
        (Except.error e, s2, Effect.checkSupport :: (ef1 ++ ef2 ++ ef3 ++ ef4))
    | (Except.ok account, s2, ef4) =>
      match getChainId cfg env s2 with
      | (Except.error e, s3, ef5) =>
          (Except.error e, s3,
            Effect.checkSupport :: (ef1 ++ ef2 ++ ef3 ++ ef4 ++ ef5))
      | (Except.ok id, s3, ef5) =>
        let unsupported := isChainUnsupported cfg.chains id
        if cfg.options.shimDisconnect = true ∧
            s3.providerImplementation =
              some SupportedProviderImplementations.ledgerConnect then
          (Except.ok { account := account,
                       chain := { id := id, unsupported := unsupported },
                       provider := p },
           { s3 with shimFlagPresent := true },
           Effect.checkSupport ::
             (ef1 ++ ef2 ++ ef3 ++ ef4 ++ ef5 ++ [Effect.setShimFlag]))
        else
          (Except.ok { account := account,
                       chain := { id := id, unsupported := unsupported },
                       provider := p },
           s3,
           Effect.checkSupport :: (ef1 ++ ef2 ++ ef3 ++ ef4 ++ ef5))

/-- What `connect()` rejects with after its catch block classifies the
thrown value. -/
inductive ConnectFailure where
  | userRejectedRequestError (cause : Thrown)
  | rethrown (e : Thrown)
  | wrappedError (s : String)
deriving DecidableEq, Repr

/-- The `catch` block of `connect()`: code 4001 becomes a
`UserRejectedRequestError` wrapping the cause; code -32002 is re-thrown
as-is when it is an `Error` instance and otherwise wrapped in
`new Error(String(error))`; everything else is re-thrown unchanged. -/
def classifyConnectError (e : Thrown) : ConnectFailure :=
  if e.code = some 4001 then
    ConnectFailure.userRejectedRequestError e
  else if e.code = some (-32002) then
    (if e.isErrorInstance then ConnectFailure.rethrown e
     else ConnectFailure.wrappedError e.str)
  else ConnectFailure.rethrown e

/-- Whether a `connect()` rejection is the distinct user-rejection kind. -/
def ConnectFailure.isUserRejectionKind : ConnectFailure → Bool
  | ConnectFailure.userRejectedRequestError _ => true
  | _ => false

/-- Whether a `connect()` rejection is a generic `Error` (an `Error`
instance that is not the user-rejection kind). -/
def ConnectFailure.isGenericError : ConnectFailure → Bool
  | ConnectFailure.userRejectedRequestError _ => false
  | ConnectFailure.rethrown e => e.isErrorInstance
  | ConnectFailure.wrappedError _ => true

/-- `connect()`: the body wrapped in the classifying catch block. -/
def connect (cfg : ConnectorConfig) (env : TransportEnv)
    (desiredChainId : Option Nat) (s : ConnectorState) :
    Except ConnectFailure ConnectorData × ConnectorState × List Effect :=
  match connectBody cfg env desiredChainId s with
  | (Except.ok d, s1, ef) => (Except.ok d, s1, ef)
  | (Except.error e, s1, ef) => (Except.error (classifyConnectError e), s1, ef)

/-- `disconnect()`: acquire the (cached) provider; when the recorded
implementation is WalletConnect, await the handle's real `disconnect()`;
detach the event handlers when the handle has `removeListener`; and when
the shim option is on and the implementation is LedgerConnect, remove
the shim key from storage.  No try/catch: a rejection from provider
acquisition or from the WalletConnect disconnect propagates. -/
def disconnect (cfg : ConnectorConfig) (env : TransportEnv)
    (s : ConnectorState) :
    Except Thrown Unit × ConnectorState × List Effect :=
  match getProvider env s with
  | (Except.error e, s1, ef1) => (Except.error e, s1, ef1)
  | (Except.ok _, s1, ef1) =>
    match (if s1.providerImplementation =
              some SupportedProviderImplementations.walletConnect then
             (match env.providerDisconnectResult with
              | Except.ok _ => (Except.ok (), [Effect.providerDisconnect])
              | Except.error e => (Except.error e, [Effect.providerDisconnect]))
           else ((Except.ok () : Except Thrown Unit), ([] : List Effect))) with
    | (Except.error e, ef2) => (Except.error e, s1, ef1 ++ ef2)
    | (Except.ok _, ef2) =>
      let ef3 : List Effect :=
        if env.hasRemoveListener then [Effect.detachListeners] else []
      if cfg.options.shimDisconnect = true ∧
          s1.providerImplementation =
            some SupportedProviderImplementations.ledgerConnect then
        (Except.ok (), { s1 with shimFlagPresent := false },
          ef1 ++ ef2 ++ ef3 ++ [Effect.removeShimFlag])
      else
        (Except.ok (), s1, ef1 ++ ef2 ++ ef3)

/-- The body of `isAuthorized()` (everything inside the `try`): return
false at once — no provider acquisition, no request — when the shim
option is on and the shim key is present; otherwise acquire the provider,
issue `eth_accounts`, and return the truthiness of the first entry
(`!!account`: false for an empty list and for an empty-string first
entry). -/
def isAuthorizedBody (cfg : ConnectorConfig) (env : TransportEnv)
    (s : ConnectorState) :
    Except Thrown Bool × ConnectorState × List Effect :=
  if cfg.options.shimDisconnect = true ∧ s.shimFlagPresent = true then
    (Except.ok false, s, [])
  else
    match getProvider env s with
    | (Except.error e, s1, ef1) => (Except.error e, s1, ef1)
    | (Except.ok _, s1, ef1) =>
      match env.ethAccountsResult with
      | Except.error e =>
          (Except.error e, s1, ef1 ++ [Effect.request ("eth_accounts")])
      | Except.ok accounts =>
          (Except.ok (match accounts with
                      | [] => false
                      | a :: _ => decide (a ≠ "")),
           s1, ef1 ++ [Effect.request ("eth_accounts")])

/-- `isAuthorized()`: the body with its catch-all — any thrown value is
swallowed and becomes `false`, so the method always yields a boolean. -/
def isAuthorized (cfg : ConnectorConfig) (env : TransportEnv)
    (s : ConnectorState) : Bool × ConnectorState × List Effect :=
  match isAuthorizedBody cfg env s with
  | (Except.ok b, s1, ef) => (b, s1, ef)
  | (Except.error _, s1, ef) => (false, s1, ef)

/-- The `accountsChanged` handler: an empty list emits `disconnect`;
otherwise a `change` event carrying `getAddress(accounts[0])` is emitted
(the handler itself throws when `getAddress` does).  It never touches
storage or the instance fields. -/
def onAccountsChanged (cfg : ConnectorConfig) (accounts : List String)
    (s : ConnectorState) :
    Except Thrown Unit × ConnectorState × List Effect :=
  match accounts with
  | [] => (Except.ok (), s, [Effect.emitDisconnect])
  | a :: _ =>
    match cfg.getAddress a with
    | none => (Except.error invalidAddressError, s, [])
    | some account =>
        (Except.ok (), s,
          [Effect.emitChange (ChangePayload.accountChange account)])

/-- The `chainChanged` handler: normalize the raw id, recompute
`unsupported`, emit a `change` event with both.  No state is touched. -/
def onChainChanged (cfg : ConnectorConfig) (raw : RawChainId)
    (s : ConnectorState) : ConnectorState × List Effect :=
  let id := cfg.normalizeChainId raw
  (s, [Effect.emitChange
         (ChangePayload.chainChange id (isChainUnsupported cfg.chains id))])

/-- The `disconnect` handler: emit `disconnect`, then — when the shim
option is on (and `localStorage` exists) — remove the shim key. -/
def onDisconnect (cfg : ConnectorConfig) (s : ConnectorState) :
    ConnectorState × List Effect :=
  if cfg.options.shimDisconnect = true then
    ({ s with shimFlagPresent := false },
      [Effect.emitDisconnect, Effect.removeShimFlag])
  else (s, [Effect.emitDisconnect])

/-- Helper: `getProvider` never changes the recorded implementation or the
shim flag, and never performs a storage write. -/
lemma getProvider_frame (env : TransportEnv) (s : ConnectorState) :
    (getProvider env s).2.1.providerImplementation = s.providerImplementation ∧
    (getProvider env s).2.1.shimFlagPresent = s.shimFlagPresent ∧
    ∀ e, e ∈ (getProvider env s).2.2 → e = Effect.kitGetProvider := by
  unfold getProvider
  rcases hs : s.provider with _ | p
  · rcases hr : env.getProviderResult with e | p <;> simp
  · simp

/-- Helper: full inversion of a successful `connect()` body — where the
account came from, how the chain descriptor was computed, and what
happened to the shim flag. -/
lemma connectBody_ok_inv (cfg : ConnectorConfig) (env : TransportEnv)
    (dc : Option Nat) (s : ConnectorState) (d : ConnectorData)
    (s' : ConnectorState) (ef : List Effect)
    (h : connectBody cfg env dc s = (Except.ok d, s', ef)) :
    ∃ a rest raw,
      env.requestAccountsResult = Except.ok (a :: rest) ∧
      cfg.getAddress a = some d.account ∧
      env.chainIdResult = Except.ok raw ∧
      d.chain.id = cfg.normalizeChainId raw ∧
      d.chain.unsupported = isChainUnsupported cfg.chains d.chain.id ∧
      s'.providerImplementation = some env.implementation ∧
      ((cfg.options.shimDisconnect = true ∧
          env.implementation = SupportedProviderImplementations.ledgerConnect) →
        s'.shimFlagPresent = true ∧ Effect.setShimFlag ∈ ef) ∧
      (¬(cfg.options.shimDisconnect = true ∧
          env.implementation = SupportedProviderImplementations.ledgerConnect) →
        s'.shimFlagPresent = s.shimFlagPresent ∧ Effect.setShimFlag ∉ ef) := by
  unfold connectBody at h
  simp only [] at h
  rcases hgp : getProvider env { s with providerImplementation := some env.implementation } with ⟨rp, s1, ef1⟩
  rw [hgp] at h
  have hfr := getProvider_frame env { s with providerImplementation := some env.implementation }
  rw [hgp] at hfr
  cases rp with
  | error e => simp at h
  | ok p =>
    simp only [] at h
    unfold getAccount at h
    rcases hgp2 : getProvider env s1 with ⟨rp2, s2, ef4a⟩
    rw [hgp2] at h
    have hfr2 := getProvider_frame env s1
    rw [hgp2] at hfr2
    cases rp2 with
    | error e => simp at h
    | ok p2 =>
      simp only [] at h
      rcases hra : env.requestAccountsResult with e | accounts
      · rw [hra] at h; simp at h
      · rw [hra] at h
        cases accounts with
        | nil => simp at h
        | cons a rest =>
          simp only [] at h
          rcases hga : cfg.getAddress a with _ | account
          · rw [hga] at h; simp at h
          · rw [hga] at h
            simp only [] at h
            unfold getChainId at h
            rcases hgp3 : getProvider env s2 with ⟨rp3, s3, ef5a⟩
            rw [hgp3] at h
            have hfr3 := getProvider_frame env s2
            rw [hgp3] at hfr3
            cases rp3 with
            | error e => simp at h
            | ok p3 =>
              simp only [] at h
              rcases hci : env.chainIdResult with e | raw
              · rw [hci] at h; simp at h
              · rw [hci] at h
                simp only [] at h
                have himpl1 : s1.providerImplementation = some env.implementation := hfr.1
                have himpl2 : s2.providerImplementation = some env.implementation := hfr2.1.trans himpl1
                have himpl3 : s3.providerImplementation = some env.implementation := hfr3.1.trans himpl2
                have hflag1 : s1.shimFlagPresent = s.shimFlagPresent := hfr.2.1
                have hflag2 : s2.shimFlagPresent = s.shimFlagPresent := hfr2.2.1.trans hflag1
                have hflag3 : s3.shimFlagPresent = s.shimFlagPresent := hfr3.2.1.trans hflag2
                by_cases hshim : cfg.options.shimDisconnect = true ∧
                    s3.providerImplementation =
                      some SupportedProviderImplementations.ledgerConnect
                · rw [if_pos hshim] at h
                  simp only [Prod.mk.injEq, Except.ok.injEq] at h
                  obtain ⟨hd, hs2, hef⟩ := h
                  refine ⟨a, rest, raw, rfl, ?_, rfl, ?_, ?_, ?_, ?_, ?_⟩
                  · rw [← hd]; exact hga
                  · rw [← hd]
                  · rw [← hd]
                  · rw [← hs2]; simpa using himpl3
                  · intro _
                    constructor
                    · rw [← hs2]
                    · rw [← hef]; simp
                  · intro hneg
                    exact absurd ⟨hshim.1, Option.some_inj.mp (himpl3 ▸ hshim.2)⟩ hneg
                · rw [if_neg hshim] at h
                  simp only [Prod.mk.injEq, Except.ok.injEq] at h
                  obtain ⟨hd, hs2, hef⟩ := h
                  refine ⟨a, rest, raw, rfl, ?_, rfl, ?_, ?_, ?_, ?_, ?_⟩
                  · rw [← hd]; exact hga
                  · rw [← hd]
                  · rw [← hd]
                  · rw [← hs2]; exact himpl3
                  · intro hpos
                    exact absurd ⟨hpos.1, himpl3.trans (by rw [hpos.2])⟩ hshim
                  · intro _
                    have hn1 : Effect.setShimFlag ∉ ef1 := fun hm => by
                      simpa using hfr.2.2 _ hm
                    have hn4 : Effect.setShimFlag ∉ ef4a := fun hm => by
                      simpa using hfr2.2.2 _ hm
                    have hn5 : Effect.setShimFlag ∉ ef5a := fun hm => by
                      simpa using hfr3.2.2 _ hm
                    constructor
                    · rw [← hs2]; exact hflag3
                    · rw [← hef]
                      by_cases hon : env.hasOn = true <;>
                        simp [hon, hn1, hn4, hn5]

/-- Helper: a `connect()` that returns data did so through a successful
body (the catch block only transforms rejections). -/
lemma connect_ok_elim (cfg : ConnectorConfig) (env : TransportEnv)
    (dc : Option Nat) (s : ConnectorState) (d : ConnectorData)
    (s' : ConnectorState) (ef : List Effect)
    (h : connect cfg env dc s = (Except.ok d, s', ef)) :
    connectBody cfg env dc s = (Except.ok d, s', ef) := by
  unfold connect at h
  rcases hcb : connectBody cfg env dc s with ⟨r, s1, ef1⟩
  rw [hcb] at h
  cases r with
  | ok d2 => simp only [Prod.mk.injEq, Except.ok.injEq] at h; rw [h.1, h.2.1, h.2.2]
  | error e => simp at h

/-- A sample configuration for concrete runs: chains 1 and 137, debug
logs off, a checksum function that rejects the empty string and returns
every other address unchanged, and a normalization that reads numeric
raw ids directly and maps raw strings to their length. -/
def sampleConfig (shim : Bool) : ConnectorConfig :=
  { chains := [1, 137],
    options := { shimDisconnect := shim, enableDebugLogs := false,
                 infuraId := none },
    getAddress := fun a => if a = "" then none else some a,
    normalizeChainId := fun r =>
      match r with
      | RawChainId.num n => n
      | RawChainId.str t => t.length }

/-- A sample transport that answers every call successfully: handle 7,
one account, chain 1, events supported. -/
def sampleEnv (impl : SupportedProviderImplementations) : TransportEnv :=
  { implementation := impl,
    getProviderResult := Except.ok 7,
    requestAccountsResult := Except.ok [("0xabc")],
    chainIdResult := Except.ok (RawChainId.num 1),
    ethAccountsResult := Except.ok [("0xabc")],
    providerDisconnectResult := Except.ok (),
    hasOn := true,
    hasRemoveListener := true }

/-- A pristine instance: nothing cached, nothing recorded, no shim key. -/
def freshState : ConnectorState :=
  { provider := none, providerImplementation := none,
    shimFlagPresent := false }

/-- C1: for every successful `connect()`, if the shim-disconnect option
is enabled and the resolved implementation is LedgerConnect (the kind
the spec's shim sentences call relay-mediated: the one that cannot truly
disconnect), the shim flag is present in storage afterwards; and if the
resolved implementation is WalletConnect (the spec's direct-bridge
kind), `connect()` leaves the flag as it was and performs no flag write
at all. -/
theorem connect_shim_flag_policy (cfg : ConnectorConfig)
    (env : TransportEnv) (dc : Option Nat) (s : ConnectorState)
    (d : ConnectorData) (s' : ConnectorState) (ef : List Effect)
    (h : connect cfg env dc s = (Except.ok d, s', ef)) :
    (cfg.options.shimDisconnect = true ∧
        env.implementation = SupportedProviderImplementations.ledgerConnect →
      s'.shimFlagPresent = true) ∧
    (env.implementation = SupportedProviderImplementations.walletConnect →
      s'.shimFlagPresent = s.shimFlagPresent ∧ Effect.setShimFlag ∉ ef) := by
  obtain ⟨a, rest, raw, h1, h2, h3, h4, h5, h6, h7, h8⟩ :=
    connectBody_ok_inv cfg env dc s d s' ef (connect_ok_elim cfg env dc s d s' ef h)
  constructor
  · intro hp
    exact (h7 hp).1
  · intro hw
    refine h8 ?_
    rintro ⟨_, hl⟩
    rw [hw] at hl
    cases hl

/-- The data, state and effect trace of the sample successful
LedgerConnect `connect()` run used by the witnesses. -/
def dLC : ConnectorData :=
  { account := ("0xabc"), chain := { id := 1, unsupported := false },
    provider := 7 }

def sLC : ConnectorState :=
  { provider := some 7,
    providerImplementation :=
      some SupportedProviderImplementations.ledgerConnect,
    shimFlagPresent := true }

def efLC : List Effect :=
  [Effect.checkSupport, Effect.kitGetProvider, Effect.attachListeners,
   Effect.emitMessage ("connecting"), Effect.request ("eth_requestAccounts"),
   Effect.request ("eth_chainId"), Effect.setShimFlag]

theorem connect_shim_flag_policy_witness :
    sLC.shimFlagPresent = true :=
  (connect_shim_flag_policy (sampleConfig true)
      (sampleEnv SupportedProviderImplementations.ledgerConnect) none
      freshState dLC sLC efLC rfl).1 ⟨rfl, rfl⟩

/-- C9: a successful `connect()` always returns, as `account`, the
checksum formatting of the first address that the `eth_requestAccounts`
request handed back: the request succeeded with a non-empty list and
`getAddress` succeeded on its head. -/
theorem connect_account_checksummed (cfg : ConnectorConfig)
    (env : TransportEnv) (dc : Option Nat) (s : ConnectorState)
    (d : ConnectorData) (s' : ConnectorState) (ef : List Effect)
    (h : connect cfg env dc s = (Except.ok d, s', ef)) :
    ∃ a rest, env.requestAccountsResult = Except.ok (a :: rest) ∧
      cfg.getAddress a = some d.account := by
  obtain ⟨a, rest, raw, h1, h2, h3, h4, h5, h6, h7, h8⟩ :=
    connectBody_ok_inv cfg env dc s d s' ef (connect_ok_elim cfg env dc s d s' ef h)
  exact ⟨a, rest, h1, h2⟩

theorem connect_account_checksummed_witness :
    ∃ a rest,
      (sampleEnv SupportedProviderImplementations.ledgerConnect).requestAccountsResult =
        Except.ok (a :: rest) ∧
      (sampleConfig true).getAddress a = some dLC.account :=
  connect_account_checksummed (sampleConfig true)
    (sampleEnv SupportedProviderImplementations.ledgerConnect) none
    freshState dLC sLC efLC rfl

/-- C4: when any step of the `connect()` body throws, the catch block
classifies the thrown value: code 4001 always rejects with the distinct
user-rejection kind; code -32002 always rejects with a generic `Error`
(never the user-rejection kind); any other thrown value is re-raised
unchanged. -/
theorem connect_error_classification (cfg : ConnectorConfig)
    (env : TransportEnv) (dc : Option Nat) (s : ConnectorState)
    (e : Thrown) (s' : ConnectorState) (ef : List Effect)
    (h : connectBody cfg env dc s = (Except.error e, s', ef)) :
    connect cfg env dc s = (Except.error (classifyConnectError e), s', ef) ∧
    (e.code = some 4001 →
      (classifyConnectError e).isUserRejectionKind = true) ∧
    (e.code = some (-32002) →
      (classifyConnectError e).isUserRejectionKind = false ∧
      (classifyConnectError e).isGenericError = true) ∧
    (e.code ≠ some 4001 → e.code ≠ some (-32002) →
      classifyConnectError e = ConnectFailure.rethrown e) := by
  refine ⟨?_, ?_, ?_, ?_⟩
  · unfold connect
    rw [h]
  · intro hc
    unfold classifyConnectError
    rw [if_pos hc]
    rfl
  · intro hc
    have h4 : ¬ e.code = some 4001 := by
      rw [hc]
      simp
    unfold classifyConnectError
    rw [if_neg h4, if_pos hc]
    by_cases hE : e.isErrorInstance = true
    · rw [if_pos hE]
      exact ⟨rfl, hE⟩
    · rw [if_neg hE]
      exact ⟨rfl, rfl⟩
  · intro h1 h2
    unfold classifyConnectError
    rw [if_neg h1, if_neg h2]

/-- The thrown value of a user-declined `eth_requestAccounts`. -/
def e4001 : Thrown :=
  { code := some 4001, isErrorInstance := true, str := ("user rejected") }

/-- A transport whose account request rejects with the given value. -/
def envAccountsError (impl : SupportedProviderImplementations)
    (e : Thrown) : TransportEnv :=
  { sampleEnv impl with requestAccountsResult := Except.error e }

theorem connect_error_classification_witness :
    (classifyConnectError e4001).isUserRejectionKind = true :=
  (connect_error_classification (sampleConfig true)
      (envAccountsError SupportedProviderImplementations.ledgerConnect e4001)
      none freshState e4001
      { provider := some 7,
        providerImplementation :=
          some SupportedProviderImplementations.ledgerConnect,
        shimFlagPresent := false }
      [Effect.checkSupport, Effect.kitGetProvider, Effect.attachListeners,
       Effect.emitMessage ("connecting"),
       Effect.request ("eth_requestAccounts")]
      rfl).2.1 rfl

/-- C5: the `accountsChanged` handler emits a `disconnect` lifecycle
signal on an empty address list, and on a non-empty list emits a
`change` signal carrying the checksum formatting of the first address
(whenever `getAddress` succeeds on it). -/
theorem onAccountsChanged_policy (cfg : ConnectorConfig)
    (s : ConnectorState) (accounts : List String) :
    (accounts = [] →
      onAccountsChanged cfg accounts s =
        (Except.ok (), s, [Effect.emitDisconnect])) ∧
    (∀ a rest acc, accounts = a :: rest → cfg.getAddress a = some acc →
      onAccountsChanged cfg accounts s =
        (Except.ok (), s,
          [Effect.emitChange (ChangePayload.accountChange acc)])) := by
  constructor
  · rintro rfl
    rfl
  · rintro a rest acc rfl hga
    unfold onAccountsChanged
    simp [hga]

theorem onAccountsChanged_policy_witness :
    onAccountsChanged (sampleConfig true) [("0xabc")] freshState =
      (Except.ok (), freshState,
        [Effect.emitChange (ChangePayload.accountChange ("0xabc"))]) :=
  (onAccountsChanged_policy (sampleConfig true) freshState
      [("0xabc")]).2 ("0xabc") [] ("0xabc") rfl rfl

/-- C6: `unsupported` is true exactly for chain ids outside the
configured list, both as computed by a successful `connect()` and in the
`chainChanged` handler, which emits a `change` signal carrying the
normalized id with the recomputed `unsupported` value. -/
theorem unsupported_chain_policy (cfg : ConnectorConfig)
    (env : TransportEnv) (dc : Option Nat) (s : ConnectorState)
    (raw : RawChainId) :
    (∀ id, isChainUnsupported cfg.chains id = true ↔ id ∉ cfg.chains) ∧
    onChainChanged cfg raw s =
      (s, [Effect.emitChange
            (ChangePayload.chainChange (cfg.normalizeChainId raw)
              (isChainUnsupported cfg.chains (cfg.normalizeChainId raw)))]) ∧
    (∀ d s' ef, connect cfg env dc s = (Except.ok d, s', ef) →
      (d.chain.unsupported = true ↔ d.chain.id ∉ cfg.chains)) := by
  refine ⟨?_, rfl, ?_⟩
  · intro id
    simp [isChainUnsupported]
  · intro d s' ef h
    obtain ⟨a, rest, raw2, h1, h2, h3, h4, h5, h6, h7, h8⟩ :=
      connectBody_ok_inv cfg env dc s d s' ef
        (connect_ok_elim cfg env dc s d s' ef h)
    rw [h5]
    simp [isChainUnsupported]

theorem unsupported_chain_policy_witness :
    onChainChanged (sampleConfig true) (RawChainId.num 5) freshState =
      (freshState,
        [Effect.emitChange (ChangePayload.chainChange 5 true)]) ∧
    (dLC.chain.unsupported = true ↔ (1 : Nat) ∉ (sampleConfig true).chains) := by
  constructor
  · exact (unsupported_chain_policy (sampleConfig true)
      (sampleEnv SupportedProviderImplementations.ledgerConnect) none
      freshState (RawChainId.num 5)).2.1
  · exact (unsupported_chain_policy (sampleConfig true)
      (sampleEnv SupportedProviderImplementations.ledgerConnect) none
      freshState (RawChainId.num 5)).2.2 dLC sLC efLC rfl

/-- C10: among the event handlers, only the transport `disconnect`
handler clears the shim flag: `accountsChanged` — in particular the
empty-list case that emits the `disconnect` lifecycle signal — and
`chainChanged` always leave the flag as it was, while `onDisconnect`
clears it whenever the shim option is enabled. -/
theorem event_handlers_shim_flag_frame (cfg : ConnectorConfig)
    (s : ConnectorState) (accounts : List String) (raw : RawChainId) :
    ((onAccountsChanged cfg accounts s).2.1.shimFlagPresent =
      s.shimFlagPresent) ∧
    (accounts = [] →
      (onAccountsChanged cfg accounts s).2.2 = [Effect.emitDisconnect]) ∧
    ((onChainChanged cfg raw s).1.shimFlagPresent = s.shimFlagPresent) ∧
    (cfg.options.shimDisconnect = true →
      (onDisconnect cfg s).1.shimFlagPresent = false) := by
  refine ⟨?_, ?_, rfl, ?_⟩
  · unfold onAccountsChanged
    rcases accounts with _ | ⟨a, rest⟩
    · rfl
    · rcases hga : cfg.getAddress a with _ | acc <;> simp [hga]
  · rintro rfl
    rfl
  · intro hs
    unfold onDisconnect
    rw [if_pos hs]

theorem event_handlers_shim_flag_frame_witness :
    ((onAccountsChanged (sampleConfig true) [] sLC).2.1.shimFlagPresent =
      sLC.shimFlagPresent) ∧
    ((onDisconnect (sampleConfig true) sLC).1.shimFlagPresent = false) :=
  ⟨(event_handlers_shim_flag_frame (sampleConfig true) sLC []
      (RawChainId.num 1)).1,
   (event_handlers_shim_flag_frame (sampleConfig true) sLC []
      (RawChainId.num 1)).2.2.2 rfl⟩

/-- C3 (amended): `isAuthorized()` never rejects (its catch-all maps
every thrown value to `false`).  When the shim option is enabled and the
shim flag is present it returns `false` at once, with no provider
acquisition and no transport request; otherwise it returns `true`
exactly when the provider is obtainable and the `eth_accounts` request
returns a list whose first entry is a non-empty string (`!!accounts[0]`:
a returned list such as one containing only the empty string still
yields `false`). -/
theorem isAuthorized_policy (cfg : ConnectorConfig) (env : TransportEnv)
    (s : ConnectorState) :
    (cfg.options.shimDisconnect = true ∧ s.shimFlagPresent = true →
      isAuthorized cfg env s = (false, s, [])) ∧
    ((isAuthorized cfg env s).1 = true ↔
      ¬(cfg.options.shimDisconnect = true ∧ s.shimFlagPresent = true) ∧
      (∃ p, (getProvider env s).1 = Except.ok p) ∧
      (∃ a rest, env.ethAccountsResult = Except.ok (a :: rest) ∧ a ≠ "")) := by
  unfold isAuthorized isAuthorizedBody
  by_cases hshim : cfg.options.shimDisconnect = true ∧ s.shimFlagPresent = true
  · rw [if_pos hshim]
    exact ⟨fun _ => rfl, by simp [hshim]⟩
  · rw [if_neg hshim]
    refine ⟨fun hc => absurd hc hshim, ?_⟩
    rcases hgp : getProvider env s with ⟨rp, s1, ef1⟩
    cases rp with
    | error e => simp [hshim]
    | ok p =>
      simp only []
      rcases hra : env.ethAccountsResult with e | accounts
      · simp [hshim]
      · cases accounts with
        | nil => simp [hshim]
        | cons a rest => simp [hshim]

/-- C2 (amended): a `disconnect()` call that completes clears the shim
flag when the shim option is enabled and the session's recorded
implementation is LedgerConnect (the spec's relay-mediated, shimmed
kind); for any other recorded implementation — in particular
WalletConnect, the direct-bridge kind — the flag is left exactly as it
was and no storage removal is performed. -/
theorem disconnect_shim_flag_policy (cfg : ConnectorConfig)
    (env : TransportEnv) (s : ConnectorState) (u : Unit)
    (s' : ConnectorState) (ef : List Effect)
    (h : disconnect cfg env s = (Except.ok u, s', ef)) :
    (cfg.options.shimDisconnect = true ∧
        s.providerImplementation =
          some SupportedProviderImplementations.ledgerConnect →
      s'.shimFlagPresent = false ∧ Effect.removeShimFlag ∈ ef) ∧
    (¬(cfg.options.shimDisconnect = true ∧
        s.providerImplementation =
          some SupportedProviderImplementations.ledgerConnect) →
      s'.shimFlagPresent = s.shimFlagPresent ∧
      Effect.removeShimFlag ∉ ef) := by
  unfold disconnect at h
  rcases hgp : getProvider env s with ⟨rp, s1, ef1⟩
  rw [hgp] at h
  have hfr := getProvider_frame env s
  rw [hgp] at hfr
  have hn1 : Effect.removeShimFlag ∉ ef1 := fun hm => by
    simpa using hfr.2.2 _ hm
  cases rp with
  | error e => simp at h
  | ok p =>
    simp only [] at h
    by_cases hwc : s1.providerImplementation =
        some SupportedProviderImplementations.walletConnect
    · rw [if_pos hwc] at h
      rcases hpd : env.providerDisconnectResult with e | u2
      · rw [hpd] at h
        simp at h
      · rw [hpd] at h
        simp only [] at h
        have hnl : ¬(cfg.options.shimDisconnect = true ∧
            s1.providerImplementation =
              some SupportedProviderImplementations.ledgerConnect) := by
          rintro ⟨_, hl⟩
          rw [hwc] at hl
          simp at hl
        rw [if_neg hnl] at h
        simp only [Prod.mk.injEq] at h
        obtain ⟨_, hs2, hef⟩ := h
        constructor
        · rintro ⟨hopt, hl⟩
          rw [← hfr.1] at hl
          exact absurd ⟨hopt, hl⟩ hnl
        · intro _
          constructor
          · rw [← hs2]
            exact hfr.2.1
          · rw [← hef]
            by_cases hrl : env.hasRemoveListener = true <;> simp [hrl, hn1]
    · rw [if_neg hwc] at h
      simp only [] at h
      by_cases hlc : cfg.options.shimDisconnect = true ∧
          s1.providerImplementation =
            some SupportedProviderImplementations.ledgerConnect
      · rw [if_pos hlc] at h
        simp only [Prod.mk.injEq] at h
        obtain ⟨_, hs2, hef⟩ := h
        constructor
        · intro _
          constructor
          · rw [← hs2]
          · rw [← hef]
            simp
        · intro hneg
          rw [← hfr.1] at hneg
          exact absurd hlc hneg
      · rw [if_neg hlc] at h
        simp only [Prod.mk.injEq] at h
        obtain ⟨_, hs2, hef⟩ := h
        constructor
        · rintro ⟨hopt, hl⟩
          rw [← hfr.1] at hl
          exact absurd ⟨hopt, hl⟩ hlc
        · intro _
          constructor
          · rw [← hs2]
            exact hfr.2.1
          · rw [← hef]
            by_cases hrl : env.hasRemoveListener = true <;> simp [hrl, hn1]

/-- C8 (amended): `disconnect()` on an instance with no session (nothing
cached, no implementation recorded) does not throw provided transport
resolution succeeds, and leaves the shim flag and the recorded
implementation untouched — but it is not a complete no-op: it resolves
and caches the provider handle as a side effect. -/
theorem disconnect_no_session (cfg : ConnectorConfig) (env : TransportEnv)
    (s : ConnectorState) (p : Nat)
    (himpl : s.providerImplementation = none) (hprov : s.provider = none)
    (hres : env.getProviderResult = Except.ok p) :
    disconnect cfg env s =
      (Except.ok (), { s with provider := some p },
        Effect.kitGetProvider ::
          (if env.hasRemoveListener = true then [Effect.detachListeners]
           else [])) := by
  unfold disconnect getProvider
  rw [hprov, hres]
  simp only []
  have hwc : ¬ (({ s with provider := some p } : ConnectorState).providerImplementation =
      some SupportedProviderImplementations.walletConnect) := by
    simp [himpl]
  rw [if_neg hwc]
  simp only []
  have hlc : ¬(cfg.options.shimDisconnect = true ∧
      ({ s with provider := some p } : ConnectorState).providerImplementation =
        some SupportedProviderImplementations.ledgerConnect) := by
    simp [himpl]
  rw [if_neg hlc]
  simp


theorem isAuthorized_policy_witness :
    isAuthorized (sampleConfig true)
        (sampleEnv SupportedProviderImplementations.ledgerConnect) sLC =
      (false, sLC, []) :=
  (isAuthorized_policy (sampleConfig true)
      (sampleEnv SupportedProviderImplementations.ledgerConnect) sLC).1
    ⟨rfl, rfl⟩

/-- A transport whose `eth_accounts` probe returns one account that is
the empty string. -/
def envEmptyStringAccount : TransportEnv :=
  { sampleEnv SupportedProviderImplementations.ledgerConnect with
      ethAccountsResult := Except.ok [("")] }

/-- C3 counterexample: with the shim path not taken, the transport
returns a one-element account list (so at least one account is
returned), yet `isAuthorized()` returns `false`, because the code tests
the truthiness of `accounts[0]` rather than the emptiness of the list. -/
theorem isAuthorized_nonempty_account_cex :
    envEmptyStringAccount.ethAccountsResult = Except.ok [("")] ∧
    ([("")] : List String) ≠ [] ∧
    (isAuthorized (sampleConfig false) envEmptyStringAccount
        freshState).1 = false :=
  ⟨rfl, by simp, rfl⟩

theorem disconnect_shim_flag_policy_witness :
    ({ provider := some 7,
       providerImplementation :=
         some SupportedProviderImplementations.ledgerConnect,
       shimFlagPresent := false } : ConnectorState).shimFlagPresent = false ∧
    Effect.removeShimFlag ∈
      [Effect.detachListeners, Effect.removeShimFlag] :=
  (disconnect_shim_flag_policy (sampleConfig true)
      (sampleEnv SupportedProviderImplementations.ledgerConnect) sLC ()
      { provider := some 7,
        providerImplementation :=
          some SupportedProviderImplementations.ledgerConnect,
        shimFlagPresent := false }
      [Effect.detachListeners, Effect.removeShimFlag] rfl).1 ⟨rfl, rfl⟩

/-- C2 counterexample: a WalletConnect session established while the
shim flag was already present in storage (it is durable, so it can
predate the session); `connect()` succeeds, the subsequent
`disconnect()` completes, and the flag is still present afterwards —
the clearing step is guarded by the LedgerConnect implementation check,
not performed regardless of transport kind. -/
theorem disconnect_regardless_of_kind_cex :
    (connect (sampleConfig true)
        (sampleEnv SupportedProviderImplementations.walletConnect) none
        { provider := none, providerImplementation := none,
          shimFlagPresent := true }).1 =
      Except.ok { account := ("0xabc"),
                  chain := { id := 1, unsupported := false },
                  provider := 7 } ∧
    (disconnect (sampleConfig true)
        (sampleEnv SupportedProviderImplementations.walletConnect)
        (connect (sampleConfig true)
            (sampleEnv SupportedProviderImplementations.walletConnect) none
            { provider := none, providerImplementation := none,
              shimFlagPresent := true }).2.1).1 = Except.ok () ∧
    (disconnect (sampleConfig true)
        (sampleEnv SupportedProviderImplementations.walletConnect)
        (connect (sampleConfig true)
            (sampleEnv SupportedProviderImplementations.walletConnect) none
            { provider := none, providerImplementation := none,
              shimFlagPresent := true }).2.1).2.1.shimFlagPresent = true :=
  ⟨rfl, rfl, rfl⟩

theorem disconnect_no_session_witness :
    disconnect (sampleConfig true)
        (sampleEnv SupportedProviderImplementations.ledgerConnect)
        freshState =
      (Except.ok (), { freshState with provider := some 7 },
        [Effect.kitGetProvider, Effect.detachListeners]) := by
  have h := disconnect_no_session (sampleConfig true)
    (sampleEnv SupportedProviderImplementations.ledgerConnect)
    freshState 7 rfl rfl rfl
  simpa using h

/-- C8 counterexample: on a pristine instance, `disconnect()` completes
without throwing, but the connector state afterwards differs from the
initial state — the provider handle has been resolved and cached. -/
theorem disconnect_no_session_state_change_cex :
    (disconnect (sampleConfig true)
        (sampleEnv SupportedProviderImplementations.ledgerConnect)
        freshState).1 = Except.ok () ∧
    (disconnect (sampleConfig true)
        (sampleEnv SupportedProviderImplementations.ledgerConnect)
        freshState).2.1 ≠ freshState ∧
    (disconnect (sampleConfig true)
        (sampleEnv SupportedProviderImplementations.ledgerConnect)
        freshState).2.1.provider = some 7 :=
  ⟨rfl, by decide, rfl⟩

/-- Helper: the full run of a successful `connect()` from an instance
with an empty provider cache: the data returned, the state reached and
the exact effect trace. -/
lemma connect_ok_run (cfg : ConnectorConfig) (env : TransportEnv)
    (dc : Option Nat) (s : ConnectorState) (p : Nat) (a acc : String)
    (rest : List String) (raw : RawChainId)
    (hprov : s.provider = none)
    (h1 : env.getProviderResult = Except.ok p)
    (h2 : env.requestAccountsResult = Except.ok (a :: rest))
    (h3 : cfg.getAddress a = some acc)
    (h4 : env.chainIdResult = Except.ok raw) :
    connect cfg env dc s =
      (Except.ok { account := acc,
                   chain := { id := cfg.normalizeChainId raw,
                              unsupported := isChainUnsupported cfg.chains
                                (cfg.normalizeChainId raw) },
                   provider := p },
       { provider := some p,
         providerImplementation := some env.implementation,
         shimFlagPresent :=
           if cfg.options.shimDisconnect = true ∧
               env.implementation =
                 SupportedProviderImplementations.ledgerConnect then true
           else s.shimFlagPresent },
       [Effect.checkSupport, Effect.kitGetProvider] ++
         (if env.hasOn = true then [Effect.attachListeners] else []) ++
         [Effect.emitMessage ("connecting"),
          Effect.request ("eth_requestAccounts"),
          Effect.request ("eth_chainId")] ++
         (if cfg.options.shimDisconnect = true ∧
             env.implementation =
               SupportedProviderImplementations.ledgerConnect then
            [Effect.setShimFlag]
          else [])) := by
  unfold connect connectBody getAccount getChainId getProvider
  simp only [hprov, h1, h2, h3, h4]
  by_cases hsh : cfg.options.shimDisconnect = true ∧
      env.implementation = SupportedProviderImplementations.ledgerConnect
  · simp [hsh]
  · simp [hsh]

/-- Helper: the full run of a successful `connect()` when the provider
handle is already cached: identical except that no `kitGetProvider`
probe occurs and the cached handle is returned. -/
lemma connect_ok_run_cached (cfg : ConnectorConfig) (env : TransportEnv)
    (dc : Option Nat) (s : ConnectorState) (q : Nat) (a acc : String)
    (rest : List String) (raw : RawChainId)
    (hprov : s.provider = some q)
    (h2 : env.requestAccountsResult = Except.ok (a :: rest))
    (h3 : cfg.getAddress a = some acc)
    (h4 : env.chainIdResult = Except.ok raw) :
    connect cfg env dc s =
      (Except.ok { account := acc,
                   chain := { id := cfg.normalizeChainId raw,
                              unsupported := isChainUnsupported cfg.chains
                                (cfg.normalizeChainId raw) },
                   provider := q },
       { provider := some q,
         providerImplementation := some env.implementation,
         shimFlagPresent :=
           if cfg.options.shimDisconnect = true ∧
               env.implementation =
                 SupportedProviderImplementations.ledgerConnect then true
           else s.shimFlagPresent },
       [Effect.checkSupport] ++
         (if env.hasOn = true then [Effect.attachListeners] else []) ++
         [Effect.emitMessage ("connecting"),
          Effect.request ("eth_requestAccounts"),
          Effect.request ("eth_chainId")] ++
         (if cfg.options.shimDisconnect = true ∧
             env.implementation =
               SupportedProviderImplementations.ledgerConnect then
            [Effect.setShimFlag]
          else [])) := by
  unfold connect connectBody getAccount getChainId getProvider
  simp only [hprov, h2, h3, h4]
  by_cases hsh : cfg.options.shimDisconnect = true ∧
      env.implementation = SupportedProviderImplementations.ledgerConnect
  · simp [hsh]
  · simp [hsh]

/-- Helper: the full run of a `disconnect()` when the provider handle
is cached: no resolution probe, the WalletConnect real disconnect and
the shim removal each exactly when their guard holds. -/
lemma disconnect_ok_run_cached (cfg : ConnectorConfig)
    (env : TransportEnv) (s : ConnectorState) (q : Nat)
    (hprov : s.provider = some q)
    (h5 : env.providerDisconnectResult = Except.ok ()) :
    disconnect cfg env s =
      (Except.ok (),
       (if cfg.options.shimDisconnect = true ∧
           s.providerImplementation =
             some SupportedProviderImplementations.ledgerConnect then
          { s with shimFlagPresent := false }
        else s),
       (if s.providerImplementation =
           some SupportedProviderImplementations.walletConnect then
          [Effect.providerDisconnect]
        else []) ++
         (if env.hasRemoveListener = true then [Effect.detachListeners]
          else []) ++
         (if cfg.options.shimDisconnect = true ∧
             s.providerImplementation =
               some SupportedProviderImplementations.ledgerConnect then
            [Effect.removeShimFlag]
          else [])) := by
  unfold disconnect getProvider
  simp only [hprov, h5]
  by_cases hwc : s.providerImplementation =
      some SupportedProviderImplementations.walletConnect
  · have hlc : ¬(cfg.options.shimDisconnect = true ∧
        s.providerImplementation =
          some SupportedProviderImplementations.ledgerConnect) := by
      rintro ⟨_, hl⟩
      rw [hwc] at hl
      simp at hl
    simp [hwc, hlc]
  · by_cases hlc : cfg.options.shimDisconnect = true ∧
        s.providerImplementation =
          some SupportedProviderImplementations.ledgerConnect
    · simp [hwc, hlc]
    · simp [hwc, hlc]

/-- Helper: effect counts of a fresh successful `connect()`: one
resolution probe, one account request, one chain request. -/
lemma connect_ok_run_counts (cfg : ConnectorConfig) (env : TransportEnv)
    (dc : Option Nat) (s : ConnectorState) (p : Nat) (a acc : String)
    (rest : List String) (raw : RawChainId)
    (hprov : s.provider = none)
    (h1 : env.getProviderResult = Except.ok p)
    (h2 : env.requestAccountsResult = Except.ok (a :: rest))
    (h3 : cfg.getAddress a = some acc)
    (h4 : env.chainIdResult = Except.ok raw) :
    ∃ d1 s1 ef1, connect cfg env dc s = (Except.ok d1, s1, ef1) ∧
      d1.provider = p ∧ s1.provider = some p ∧
      ef1.count Effect.kitGetProvider = 1 ∧
      ef1.count (Effect.request ("eth_requestAccounts")) = 1 ∧
      ef1.count (Effect.request ("eth_chainId")) = 1 := by
  refine ⟨_, _, _, connect_ok_run cfg env dc s p a acc rest raw hprov h1 h2 h3 h4,
    rfl, rfl, ?_, ?_, ?_⟩
  all_goals split_ifs <;> decide

/-- Helper: effect counts of a cached successful `connect()`: no
resolution probe, yet still one fresh account request and one fresh
chain request. -/
lemma connect_ok_cached_counts (cfg : ConnectorConfig)
    (env : TransportEnv) (dc : Option Nat) (s : ConnectorState) (q : Nat)
    (a acc : String) (rest : List String) (raw : RawChainId)
    (hprov : s.provider = some q)
    (h2 : env.requestAccountsResult = Except.ok (a :: rest))
    (h3 : cfg.getAddress a = some acc)
    (h4 : env.chainIdResult = Except.ok raw) :
    ∃ d2 s2 ef2, connect cfg env dc s = (Except.ok d2, s2, ef2) ∧
      d2.provider = q ∧ s2.provider = some q ∧
      ef2.count Effect.kitGetProvider = 0 ∧
      ef2.count (Effect.request ("eth_requestAccounts")) = 1 ∧
      ef2.count (Effect.request ("eth_chainId")) = 1 := by
  refine ⟨_, _, _,
    connect_ok_run_cached cfg env dc s q a acc rest raw hprov h2 h3 h4,
    rfl, rfl, ?_, ?_, ?_⟩
  all_goals split_ifs <;> decide

/-- Helper: a `disconnect()` on a cached handle performs no resolution
probe and keeps the cached handle. -/
lemma disconnect_ok_no_resolution (cfg : ConnectorConfig)
    (env : TransportEnv) (s : ConnectorState) (q : Nat)
    (hprov : s.provider = some q)
    (h5 : env.providerDisconnectResult = Except.ok ()) :
    ∃ s2 ef2, disconnect cfg env s = (Except.ok (), s2, ef2) ∧
      s2.provider = some q ∧
      ef2.count Effect.kitGetProvider = 0 := by
  refine ⟨_, _, disconnect_ok_run_cached cfg env s q hprov h5, ?_, ?_⟩
  · split <;> simp [hprov]
  · split_ifs <;> decide

/-- C7: over the sequence `connect(); disconnect(); connect()` on one
instance starting with an empty cache, the resolver
(`connectKit.getProvider()`) is invoked exactly once across the three
calls; each of the two `connect()` calls issues its own fresh
`eth_requestAccounts` and `eth_chainId` requests; and the second
`connect()` hands back the same cached provider handle as the first. -/
theorem connect_disconnect_connect_resolution_once
    (cfg : ConnectorConfig) (env : TransportEnv) (dc1 dc2 : Option Nat)
    (s : ConnectorState) (p : Nat) (a acc : String) (rest : List String)
    (raw : RawChainId)
    (hprov : s.provider = none)
    (h1 : env.getProviderResult = Except.ok p)
    (h2 : env.requestAccountsResult = Except.ok (a :: rest))
    (h3 : cfg.getAddress a = some acc)
    (h4 : env.chainIdResult = Except.ok raw)
    (h5 : env.providerDisconnectResult = Except.ok ()) :
    ∃ d1 s1 ef1 s2 ef2 d2 s3 ef3,
      connect cfg env dc1 s = (Except.ok d1, s1, ef1) ∧
      disconnect cfg env s1 = (Except.ok (), s2, ef2) ∧
      connect cfg env dc2 s2 = (Except.ok d2, s3, ef3) ∧
      (ef1 ++ ef2 ++ ef3).count Effect.kitGetProvider = 1 ∧
      ef1.count (Effect.request ("eth_requestAccounts")) = 1 ∧
      ef1.count (Effect.request ("eth_chainId")) = 1 ∧
      ef3.count (Effect.request ("eth_requestAccounts")) = 1 ∧
      ef3.count (Effect.request ("eth_chainId")) = 1 ∧
      d2.provider = d1.provider := by
  obtain ⟨d1, s1, ef1, hA, hd1, hs1, k1, cA1, cA2⟩ :=
    connect_ok_run_counts cfg env dc1 s p a acc rest raw hprov h1 h2 h3 h4
  obtain ⟨s2, ef2, hD, hs2, k2⟩ :=
    disconnect_ok_no_resolution cfg env s1 p hs1 h5
  obtain ⟨d2, s3, ef3, hC, hd2, hs3, k3, cC1, cC2⟩ :=
    connect_ok_cached_counts cfg env dc2 s2 p a acc rest raw hs2 h2 h3 h4
  refine ⟨d1, s1, ef1, s2, ef2, d2, s3, ef3, hA, hD, hC, ?_, cA1, cA2, cC1,
    cC2, ?_⟩
  · simp [List.count_append, k1, k2, k3]
  · rw [hd1, hd2]


theorem connect_disconnect_connect_resolution_once_witness :
    ∃ d1 s1 ef1 s2 ef2 d2 s3 ef3,
      connect (sampleConfig true)
          (sampleEnv SupportedProviderImplementations.ledgerConnect) none
          freshState = (Except.ok d1, s1, ef1) ∧
      disconnect (sampleConfig true)
          (sampleEnv SupportedProviderImplementations.ledgerConnect) s1 =
        (Except.ok (), s2, ef2) ∧
      connect (sampleConfig true)
          (sampleEnv SupportedProviderImplementations.ledgerConnect) none
          s2 = (Except.ok d2, s3, ef3) ∧
      (ef1 ++ ef2 ++ ef3).count Effect.kitGetProvider = 1 ∧
      ef1.count (Effect.request ("eth_requestAccounts")) = 1 ∧
      ef1.count (Effect.request ("eth_chainId")) = 1 ∧
      ef3.count (Effect.request ("eth_requestAccounts")) = 1 ∧
      ef3.count (Effect.request ("eth_chainId")) = 1 ∧
      d2.provider = d1.provider :=
  connect_disconnect_connect_resolution_once (sampleConfig true)
    (sampleEnv SupportedProviderImplementations.ledgerConnect) none none
    freshState 7 ("0xabc") ("0xabc") [] (RawChainId.num 1)
    rfl rfl rfl rfl rfl rfl

end LedgerWagmi
